import Mathlib

/-! Shallow embedding of the delivery-fee and refund-settlement engine of
`app/domain/delivery.py` (classes `DeliverySku`, `DeliveryProduct`,
`DeliveryGroup`, `DeliveryPayment`, the pydantic schema
`DeliveryPointUnitORM`) and of
`app/utils/geo_utils.calculate_region_additional_delivery_fee`.

Python `Decimal` quantities are modelled as `ℚ` (the source performs only
exact addition, subtraction, multiplication, comparison and one short
division fed to `ceil`); statuses, pricing methods and cancellation
contexts are the `str` values the source compares, so they are `String`
here. Mutating methods become functions from the object state to the new
object state; a method that can raise returns the state paired with a
flag, or an `Option`. -/

namespace Delivery

/-- `DeliverySku._not_countable_statuses` (delivery.py line 729): the status
values excluded from every PV / fee aggregation. -/
def notCountableStatuses : List String :=
  [ "unselected",
    "refund_finished_normal",
    "refund_finished_order_canceled",
    "refund_finished_order_canceled_confirmed",
    "refund_finished_check_rejected",
    "refund_finished_ship_rejected",
    "payment_fail_validation",
    "payment_fail_invalid_payment_trial",
    "payment_fail_time_out",
    "payment_fail_error",
    "payment_fail_point_error" ]

/-- `sku.status not in sku.not_countable_statuses`. -/
def countable (status : String) : Bool :=
  !(notCountableStatuses.contains status)

/-- `DeliverySku._status_mapper` (delivery.py line 744): cancellation context
to the target sku status; `none` models the `KeyError` of a missing key. -/
def statusMapper : String → Option String
  | "mp_order_cancel" => some "refund_finished_order_canceled"
  | "backoffice_order_cancel_on_claim" => some "refund_finished_normal"
  | "backoffice_order_cancel_on_supplier_check_rejection" =>
      some "refund_finished_check_rejected"
  | "backoffice_order_cancel_on_supplier_ship_rejection" =>
      some "refund_finished_ship_rejected"
  | "backoffice_order_cancel_on_special_case" =>
      some "refund_finished_order_canceled"
  | _ => none

/-- The fields of `DeliverySku` read by the fee and refund computations. -/
structure DeliverySku where
  id : String
  status : String
  sellPrice : ℚ
  quantity : ℕ
  /-- the cached `sku_pv_amount` field (set by `DeliveryOrder.calculate_fees`). -/
  skuPvAmount : ℚ
deriving Repr, DecidableEq

/-- The fields of `DeliveryProduct` read by the fee and refund computations.
`hasDeliveryInfo` stands for the truthiness of the `delivery_info` dict. -/
structure DeliveryProduct where
  id : String
  hasDeliveryInfo : Bool
  deliveryPricingMethod : String
  baseDeliveryFee : ℚ
  chargeStandard : ℚ
  refundDeliveryFee : ℚ
  refundDeliveryFeeIfFreeDelivery : ℚ
  numberOfSkusToConsider : ℕ
  numberOfQuantityToConsider : ℕ
  productPvAmount : ℚ
  currCalculatedProductDeliveryFee : ℚ
  skus : List DeliverySku
deriving Repr, DecidableEq

/-- The skus of a product whose status is countable. -/
def DeliveryProduct.countableSkus (p : DeliveryProduct) : List DeliverySku :=
  p.skus.filter (fun s => countable s.status)

/-- `DeliveryProduct.calculate_delivery_fee` (delivery.py lines 1471-1516).
The counting loop runs first and caches `number_of_skus_to_consider`,
`number_of_quantity_to_consider` (incremented by `1` per countable sku, as
written) and `product_pv_amount`; then the pricing dispatch assigns
`curr_calculated_product_delivery_fee` or raises `InvalidPricingMethod`
(the second component `true`), also when the method string is empty. -/
def DeliveryProduct.calculate_delivery_fee (p : DeliveryProduct) :
    DeliveryProduct × Bool :=
  let counted : DeliveryProduct :=
    { p with
      numberOfSkusToConsider := p.countableSkus.length
      numberOfQuantityToConsider := p.countableSkus.length
      productPvAmount := (p.countableSkus.map (·.skuPvAmount)).sum }
  if counted.hasDeliveryInfo = false then
    ({ counted with currCalculatedProductDeliveryFee := 0 }, false)
  else if counted.numberOfSkusToConsider = 0 then
    ({ counted with currCalculatedProductDeliveryFee := 0 }, false)
  else if counted.deliveryPricingMethod = "conditional_charge" then
    if counted.productPvAmount ≥ counted.chargeStandard then
      ({ counted with currCalculatedProductDeliveryFee := 0 }, false)
    else
      ({ counted with currCalculatedProductDeliveryFee := counted.baseDeliveryFee }, false)
  else if counted.deliveryPricingMethod = "unit_charge" then
    ({ counted with currCalculatedProductDeliveryFee :=
        counted.baseDeliveryFee *
          ((⌈(counted.numberOfQuantityToConsider : ℚ) / counted.chargeStandard⌉ : ℤ) : ℚ) },
      false)
  else if counted.deliveryPricingMethod = "regular_charge" then
    ({ counted with currCalculatedProductDeliveryFee := counted.baseDeliveryFee }, false)
  else if counted.deliveryPricingMethod = "free" then
    ({ counted with currCalculatedProductDeliveryFee := 0 }, false)
  else
    (counted, true)

/-- `geo_utils.calculate_region_additional_delivery_fee` (geo_utils.py lines
69-92). `regionId` is `geo_utils.RegionId`: 1 = MAINLAND, 2 = JEJU,
3 = OUTSIDE_JEJU. -/
def calculate_region_additional_delivery_fee (regionId : ℕ)
    (regionDivisionLevel : Option ℤ) (isAdditionalPricingSet : Bool)
    (division2Fee division3JejuFee division3OutsideJejuFee : ℚ) : ℚ :=
  if isAdditionalPricingSet = false then 0
  else
    match regionDivisionLevel with
    | none => 0
    | some lvl =>
      if lvl = 2 then
        if regionId = 1 then 0 else division2Fee
      else
        if regionId = 1 then 0
        else if regionId = 2 then division3JejuFee
        else division3OutsideJejuFee

/-- The fields of `DeliveryGroup` read by the fee and refund computations. -/
structure DeliveryGroup where
  /-- empty iff the group is a single-product "virtual" group. -/
  supplierDeliveryGroupId : String
  /-- `"max"` or `"min"`; resolved through `getattr(builtins, ...)`. -/
  calculationMethod : String
  regionId : ℕ
  regionDivisionLevel : Option ℤ
  division2Fee : ℚ
  division3JejuFee : ℚ
  division3OutsideJejuFee : ℚ
  isAdditionalPricingSet : Bool
  lossFee : ℚ
  currCalculatedGroupDeliveryFee : ℚ
  currGroupDeliveryDiscount : ℚ
  currRegionAdditionalDeliveryFee : ℚ
  products : List DeliveryProduct
deriving Repr, DecidableEq

/-- Modelled from the spec: the body of
`DeliveryGroup.get_original_region_additional_delivery_fee` is elided
(`...`) in delivery.py line 1712. Per spec section 4.2 the surcharge is
looked up once per group from the group's schedule fields
(`region_division_level`, `division2_fee`, `division3_jeju_fee`,
`division3_outside_jeju_fee`, `is_additional_pricing_set`) and the resolved
region tier, which is the lookup `geo_utils.calculate_region_additional_delivery_fee`
performs; the database trigger in `adapters/event_listeners.py` lines
896-910 mirrors the same computation. -/
def DeliveryGroup.get_original_region_additional_delivery_fee
    (g : DeliveryGroup) : ℚ :=
  calculate_region_additional_delivery_fee g.regionId g.regionDivisionLevel
    g.isAdditionalPricingSet g.division2Fee g.division3JejuFee
    g.division3OutsideJejuFee

/-- Python `max(list)` for a non-empty list; the source guards the call with
`len(price_list) > 0` and otherwise substitutes `0`. -/
def builtinsMax : List ℚ → ℚ
  | [] => 0
  | x :: xs => xs.foldl max x

/-- Python `min(list)` under the same guard. -/
def builtinsMin : List ℚ → ℚ
  | [] => 0
  | x :: xs => xs.foldl min x

/-- `getattr(modules["builtins"], calculation_method)(price_list)`: the
configured method is `"max"` or `"min"` (any other value would fail in
Python before reaching a number). -/
def applyCalculationMethod (method : String) (priceList : List ℚ) : ℚ :=
  if method = "min" then builtinsMin priceList else builtinsMax priceList

/-- `DeliveryGroup.calculate_delivery_fee` (delivery.py lines 1649-1695):
recomputes `curr_calculated_group_delivery_fee`,
`curr_group_delivery_discount` and `curr_region_additional_delivery_fee`
from the products' cached fields. The `[] => g` arm of the virtual branch is
unreachable: a positive countable-quantity sum needs a product. -/
def DeliveryGroup.calculate_delivery_fee (g : DeliveryGroup) : DeliveryGroup :=
  if (g.products.map (·.numberOfQuantityToConsider)).sum = 0 then
    { g with
      currCalculatedGroupDeliveryFee := 0
      currGroupDeliveryDiscount := 0
      currRegionAdditionalDeliveryFee := 0 }
  else if g.supplierDeliveryGroupId ≠ "" then
    let total := (g.products.map (·.currCalculatedProductDeliveryFee)).sum
    let priceList := (g.products.filter (fun p => p.numberOfSkusToConsider ≠ 0)).map
      (·.currCalculatedProductDeliveryFee)
    if priceList ≠ [] then
      { g with
        currCalculatedGroupDeliveryFee := total
        currGroupDeliveryDiscount :=
          total - applyCalculationMethod g.calculationMethod priceList
        currRegionAdditionalDeliveryFee :=
          g.get_original_region_additional_delivery_fee }
    else
      { g with
        currCalculatedGroupDeliveryFee := 0
        currGroupDeliveryDiscount := 0
        currRegionAdditionalDeliveryFee := 0 }
  else
    match g.products with
    | [] => g
    | onlyProduct :: _ =>
      if onlyProduct.numberOfSkusToConsider = 0 then
        { g with
          currCalculatedGroupDeliveryFee := 0
          currGroupDeliveryDiscount := 0
          currRegionAdditionalDeliveryFee := 0 }
      else
        { g with
          currCalculatedGroupDeliveryFee :=
            onlyProduct.currCalculatedProductDeliveryFee
          currGroupDeliveryDiscount := 0
          currRegionAdditionalDeliveryFee :=
            if onlyProduct.deliveryPricingMethod = "unit_charge" then
              g.get_original_region_additional_delivery_fee *
                ((⌈((onlyProduct.countableSkus.map (fun s => (s.quantity : ℚ))).sum) /
                    onlyProduct.chargeStandard⌉ : ℤ) : ℚ)
            else g.get_original_region_additional_delivery_fee }

/-- `prd.calculate_delivery_fee()` for every product of a group, `none` when
one raises `InvalidPricingMethod`. -/
def calcProducts : List DeliveryProduct → Option (List DeliveryProduct)
  | [] => some []
  | p :: rest =>
    let r := p.calculate_delivery_fee
    if r.2 then none
    else (calcProducts rest).map (fun tail => r.1 :: tail)

/-- `DeliveryGroup.calculate_delivery_fee_on_group` (delivery.py lines
1701-1705): recompute every product, then the group. -/
def DeliveryGroup.calculate_delivery_fee_on_group (g : DeliveryGroup) :
    Option DeliveryGroup :=
  (calcProducts g.products).map
    (fun ps => DeliveryGroup.calculate_delivery_fee { g with products := ps })

/-- The skus of every product of the group, in product order. -/
def DeliveryGroup.allSkus (g : DeliveryGroup) : List DeliverySku :=
  (g.products.map (·.skus)).flatten

/-- The sku object with the given id, as the method receiver `self`. -/
def DeliveryGroup.findSku (g : DeliveryGroup) (skuId : String) :
    Option DeliverySku :=
  g.allSkus.find? (fun s => s.id == skuId)

/-- The current `status` field of the sku with the given id. -/
def DeliveryGroup.skuStatus (g : DeliveryGroup) (skuId : String) :
    Option String :=
  (g.findSku skuId).map (·.status)

/-- `self.status = st` on the sku with the given id. -/
def DeliveryGroup.setSkuStatus (g : DeliveryGroup) (skuId st : String) :
    DeliveryGroup :=
  { g with
    products := g.products.map (fun p =>
      { p with skus := p.skus.map (fun s =>
          if s.id == skuId then { s with status := st } else s) }) }

/-- The group's net fee as the refund engine reads it:
`curr_calculated_group_delivery_fee + curr_region_additional_delivery_fee -
curr_group_delivery_discount`. -/
def DeliveryGroup.netFee (g : DeliveryGroup) : ℚ :=
  g.currCalculatedGroupDeliveryFee + g.currRegionAdditionalDeliveryFee -
    g.currGroupDeliveryDiscount

/-- `DeliverySku.get_delivery_fee_difference` (delivery.py lines 906-936) for
a sku that belongs to a delivery group: recompute the group, flip the sku's
status to the context's target, recompute again, diff the net fees, restore
the status. `none` models a propagated `InvalidPricingMethod` or the
`KeyError` of an unmapped context. -/
def get_delivery_fee_difference (g : DeliveryGroup) (skuId refundContext : String) :
    Option (DeliveryGroup × ℚ) := do
  let g1 ← g.calculate_delivery_fee_on_group
  let currentStatus ← g1.skuStatus skuId
  let target ← statusMapper refundContext
  let g3 ← (g1.setSkuStatus skuId target).calculate_delivery_fee_on_group
  some (g3.setSkuStatus skuId currentStatus, g1.netFee - g3.netFee)

/-- `DeliverySku._calculate_refund_price_on_partial_cancelation` (delivery.py
lines 974-999) for a sku that belongs to a delivery group. The outer
`Option` is a raised exception; the inner `Option` is the business result:
`none` is the "not eligible" rejection (`return None`), `some price` the
computed refund price. -/
def calculate_refund_price_on_partial_cancelation (g : DeliveryGroup) (skuId refundContext : String) :
    Option (DeliveryGroup × Option ℚ) := do
  let sku ← g.findSku skuId
  let r ← get_delivery_fee_difference g skuId refundContext
  let g4 := r.1
  let diff := r.2
  if diff < 0 ∧ sku.sellPrice * (sku.quantity : ℚ) < |diff| then
    some (g4, none)
  else if (refundContext = "backoffice_order_cancel_on_supplier_check_rejection" ∨
           refundContext = "backoffice_order_cancel_on_supplier_ship_rejection") ∧
          diff < 0 then
    some ({ g4 with lossFee := |diff| }, some (sku.sellPrice * (sku.quantity : ℚ)))
  else
    some (g4, some (sku.sellPrice * (sku.quantity : ℚ) + diff))

/-- `DeliverySku.check_if_delivered_for_free` (delivery.py lines 1192-1210):
`false` exactly when the sku's product's cached fee is the unique maximum of
the fees of the group's products that still have countable skus. -/
def check_if_delivered_for_free (g : DeliveryGroup) (productId : String) : Bool :=
  let priceList := (g.products.filter (fun p => 0 < p.numberOfSkusToConsider)).map
    (·.currCalculatedProductDeliveryFee)
  let currFee := (((g.products.find? (fun p => p.id == productId)).map
    (·.currCalculatedProductDeliveryFee)).getD 0)
  !(builtinsMax priceList == currFee && priceList.count currFee == 1)

/-- `DeliverySku._calculate_delivery_fee_on_return_check` (delivery.py lines
1162-1190): the return fee written to `calculated_refund_delivery_fee` for a
sku of product `p` with quantity `quantity`. -/
def calculate_delivery_fee_on_return_check (g : DeliveryGroup)
    (p : DeliveryProduct) (quantity : ℕ) (isDeliveredForFree : Bool) : ℚ :=
  let base := if isDeliveredForFree then p.refundDeliveryFeeIfFreeDelivery
    else p.refundDeliveryFee
  let boxNum : ℤ := if p.deliveryPricingMethod = "unit_charge" then
    ⌈(quantity : ℚ) / p.chargeStandard⌉ else 1
  base * (boxNum : ℚ) +
    (if g.supplierDeliveryGroupId = "" ∧ p.deliveryPricingMethod = "unit_charge" then
      g.get_original_region_additional_delivery_fee * (boxNum : ℚ)
    else g.get_original_region_additional_delivery_fee)

/-- The fields of `Schemas.DeliveryPointUnitORM` (and of the matching
`DeliveryPointUnit` rows) read by the cancellation apportionment. -/
structure DeliveryPointUnit where
  id : String
  /-- `some` iff the credit is scoped to one sku (`delivery_sku_id`). -/
  deliverySkuId : Option String
  priority : ℤ
  currPointAmount : ℚ
  refundAmount : ℚ
  processed : Bool
deriving Repr, DecidableEq

/-- The sort key relation of `point_units.sort(key=lambda x: x.priority)`. -/
def priorityLE (a b : DeliveryPointUnit) : Prop :=
  a.priority ≤ b.priority

instance : DecidableRel priorityLE := fun a b =>
  inferInstanceAs (Decidable (a.priority ≤ b.priority))

instance : IsTotal DeliveryPointUnit priorityLE :=
  ⟨fun a b => le_total a.priority b.priority⟩

instance : IsTrans DeliveryPointUnit priorityLE :=
  ⟨fun _ _ _ hab hbc => le_trans hab hbc⟩

/-- delivery.py lines 1817-1828: split the eligible units into sku-scoped
and order-wide, sort each part by ascending priority (Python's sort is
stable, as is insertion sort), and put every sku-scoped unit before every
order-wide unit. -/
def pointUnitsInProcessingOrder (units : List DeliveryPointUnit) :
    List DeliveryPointUnit :=
  (units.filter (fun u => u.deliverySkuId.isSome)).insertionSort priorityLE ++
    (units.filter (fun u => u.deliverySkuId.isNone)).insertionSort priorityLE

/-- The loop of delivery.py lines 1834-1850 over the ordered units: returns
the consumed slice (`point_units[:order]`, each entry with its updated
`curr_point_amount` and `refund_amount`) and `charge_amount_on_pg`. A unit
whose balance is below the remaining amount is zeroed and the walk
continues; otherwise the remaining amount is taken from it and the walk
breaks; if the list runs out, the remainder is charged on the gateway. -/
def apportionPoints : List DeliveryPointUnit → ℚ → List DeliveryPointUnit × ℚ
  | [], refundAmount => ([], refundAmount)
  | u :: rest, refundAmount =>
    if 0 < refundAmount - u.currPointAmount then
      let u2 : DeliveryPointUnit :=
        { u with refundAmount := u.refundAmount + u.currPointAmount,
                 currPointAmount := 0 }
      let next := apportionPoints rest (refundAmount - u.currPointAmount)
      (u2 :: next.1, next.2)
    else
      ([{ u with currPointAmount := u.currPointAmount - refundAmount,
                 refundAmount := u.refundAmount + refundAmount }], 0)

/-- `DeliveryPayment.set_partial_cancelation_outstandings` (delivery.py lines
1800-1865), reduced to the data it writes: `points_to_cancel` (the slicing
into `sku_point_to_cancel` and `delivery_point_to_cancel` concatenates back
to `point_units[:order]`) and the `pg_to_cancel` refund amount. -/
def set_partial_cancelation_outstandings (units : List DeliveryPointUnit)
    (refundAmount : ℚ) : List DeliveryPointUnit × ℚ :=
  apportionPoints (pointUnitsInProcessingOrder units) refundAmount

/-- `DeliveryPayment.deduct_point_units` (delivery.py lines 1923-1934):
apply the outstandings record to the payment's point units. Returns the
updated units and the record as written back (matched entries get
`processed := true`; the flag is never read). The source builds a dict
keyed by unit id; ids are unique serial numbers, so `find?` by id is the
same lookup. -/
def deduct_point_units (pointUnits outstandings : List DeliveryPointUnit) :
    List DeliveryPointUnit × List DeliveryPointUnit :=
  ( pointUnits.map (fun pu =>
      match outstandings.find? (fun o => o.id == pu.id) with
      | some o =>
        { pu with currPointAmount := pu.currPointAmount - o.refundAmount,
                  refundAmount := pu.refundAmount + o.refundAmount }
      | none => pu),
    outstandings.map (fun o =>
      if pointUnits.any (fun pu => pu.id == o.id) then { o with processed := true }
      else o) )

/-! ## Apportionment lemmas (claims about `set_partial_cancelation_outstandings`) -/

/-- How an entry of the written `points_to_cancel` record relates to the
eligible credit it was copied from: same credit, a deduction of at most the
credit's balance, a non-negative remaining balance, and the conservation of
`refund_amount + curr_point_amount`. -/
def Deducted (after before : DeliveryPointUnit) : Prop :=
  after.id = before.id ∧
  after.deliverySkuId = before.deliverySkuId ∧
  after.priority = before.priority ∧
  after.currPointAmount ≤ before.currPointAmount ∧
  0 ≤ after.currPointAmount ∧
  after.refundAmount + after.currPointAmount =
    before.refundAmount + before.currPointAmount

/-- The entries of the record are the walked prefix of the ordered units,
each deducted within its balance. -/
theorem apportionPoints_deducted :
    ∀ (L : List DeliveryPointUnit) (r : ℚ), 0 ≤ r →
      (∀ u ∈ L, 0 ≤ u.currPointAmount) →
      List.Forall₂ Deducted (apportionPoints L r).1
        (L.take (apportionPoints L r).1.length)
  | [], r, _, _ => by simp [apportionPoints]
  | u :: rest, r, hr, hL => by
    have hu : 0 ≤ u.currPointAmount := hL u (List.mem_cons_self u rest)
    by_cases h : 0 < r - u.currPointAmount
    · have ih := apportionPoints_deducted rest (r - u.currPointAmount) (le_of_lt h)
        (fun v hv => hL v (List.mem_cons_of_mem u hv))
      simp only [apportionPoints, if_pos h, List.length_cons, List.take_succ_cons]
      exact List.Forall₂.cons ⟨rfl, rfl, rfl, hu, le_refl 0, by ring⟩ ih
    · have hru : r ≤ u.currPointAmount := by linarith [not_lt.mp h]
      simp only [apportionPoints, if_neg h, List.length_cons, List.length_nil,
        List.take_succ_cons, List.take_zero]
      refine List.Forall₂.cons ⟨rfl, rfl, rfl, ?_, ?_, ?_⟩ List.Forall₂.nil <;>
        dsimp only
      · linarith
      · linarith
      · ring

/-- The identity of each record entry with the corresponding ordered unit
(no balance hypotheses needed). -/
theorem apportionPoints_same :
    ∀ (L : List DeliveryPointUnit) (r : ℚ),
      List.Forall₂
        (fun after before : DeliveryPointUnit => after.id = before.id ∧
          after.deliverySkuId = before.deliverySkuId ∧
          after.priority = before.priority)
        (apportionPoints L r).1 (L.take (apportionPoints L r).1.length)
  | [], r => by simp [apportionPoints]
  | u :: rest, r => by
    by_cases h : 0 < r - u.currPointAmount
    · have ih := apportionPoints_same rest (r - u.currPointAmount)
      simp only [apportionPoints, if_pos h, List.length_cons, List.take_succ_cons]
      exact List.Forall₂.cons ⟨rfl, rfl, rfl⟩ ih
    · simp only [apportionPoints, if_neg h, List.length_cons, List.length_nil,
        List.take_succ_cons, List.take_zero]
      exact List.Forall₂.cons ⟨rfl, rfl, rfl⟩ List.Forall₂.nil

/-- Conservation: the total deducted from the walked prefix plus the gateway
remainder is the requested amount. -/
theorem apportionPoints_sum :
    ∀ (L : List DeliveryPointUnit) (r : ℚ),
      ((L.take (apportionPoints L r).1.length).map (·.currPointAmount)).sum -
        ((apportionPoints L r).1.map (·.currPointAmount)).sum +
        (apportionPoints L r).2 = r
  | [], r => by simp [apportionPoints]
  | u :: rest, r => by
    by_cases h : 0 < r - u.currPointAmount
    · have ih := apportionPoints_sum rest (r - u.currPointAmount)
      simp only [apportionPoints, if_pos h, List.length_cons, List.take_succ_cons,
        List.map_cons, List.sum_cons]
      linarith [ih]
    · simp only [apportionPoints, if_neg h, List.length_cons, List.length_nil,
        List.take_succ_cons, List.take_zero, List.map_cons, List.map_nil,
        List.sum_cons, List.sum_nil]
      ring

/-- The gateway remainder is never negative for a non-negative request. -/
theorem apportionPoints_pg_nonneg :
    ∀ (L : List DeliveryPointUnit) (r : ℚ), 0 ≤ r → 0 ≤ (apportionPoints L r).2
  | [], r, hr => hr
  | u :: rest, r, hr => by
    by_cases h : 0 < r - u.currPointAmount
    · have ih := apportionPoints_pg_nonneg rest (r - u.currPointAmount) (le_of_lt h)
      simp only [apportionPoints]
      rw [if_pos h]
      exact ih
    · simp only [apportionPoints]
      rw [if_neg h]

/-- Every record entry before the last one is fully consumed: its remaining
balance is zero. The walk therefore never skips ahead: a credit later in the
processing order receives a deduction only once every credit before it in
the record has been emptied. -/
theorem apportionPoints_prefix_consumed :
    ∀ (L : List DeliveryPointUnit) (r : ℚ),
      ∀ x ∈ (apportionPoints L r).1.dropLast, x.currPointAmount = 0
  | [], r => by simp [apportionPoints]
  | u :: rest, r => by
    by_cases hc : 0 < r - u.currPointAmount
    · have heq : apportionPoints (u :: rest) r =
        ({ u with refundAmount := u.refundAmount + u.currPointAmount,
                  currPointAmount := 0 } ::
            (apportionPoints rest (r - u.currPointAmount)).1,
          (apportionPoints rest (r - u.currPointAmount)).2) := by
        simp only [apportionPoints]
        rw [if_pos hc]
      rw [heq]
      intro x hx
      match htail : (apportionPoints rest (r - u.currPointAmount)).1 with
      | [] =>
        rw [htail] at hx
        simp at hx
      | v :: vs =>
        rw [htail, List.dropLast_cons₂] at hx
        rcases List.mem_cons.mp hx with h1 | h1
        · rw [h1]
        · have ih := apportionPoints_prefix_consumed rest (r - u.currPointAmount) x
          rw [htail] at ih
          exact ih h1
    · have heq : apportionPoints (u :: rest) r =
        ([{ u with currPointAmount := u.currPointAmount - r,
                   refundAmount := u.refundAmount + r }], 0) := by
        simp only [apportionPoints]
        rw [if_neg hc]
      rw [heq]
      simp

/-- Membership transfers from the processing order back to the eligible set. -/
theorem mem_of_mem_processingOrder {units : List DeliveryPointUnit}
    {u : DeliveryPointUnit} (h : u ∈ pointUnitsInProcessingOrder units) :
    u ∈ units := by
  rcases List.mem_append.mp h with h1 | h1
  · exact (List.mem_filter.mp ((List.mem_insertionSort priorityLE).mp h1)).1
  · exact (List.mem_filter.mp ((List.mem_insertionSort priorityLE).mp h1)).1

/-- The order the walk consumes credits in: every sku-scoped credit before
every order-wide credit, and ascending priority inside each of the two
scope classes. -/
def ProcessedBefore (a b : DeliveryPointUnit) : Prop :=
  (b.deliverySkuId.isSome = true → a.deliverySkuId.isSome = true) ∧
  (a.deliverySkuId.isSome = b.deliverySkuId.isSome → a.priority ≤ b.priority)

/-- The processing order is pairwise `ProcessedBefore`. -/
theorem pointUnitsInProcessingOrder_pairwise (units : List DeliveryPointUnit) :
    List.Pairwise ProcessedBefore (pointUnitsInProcessingOrder units) := by
  apply List.pairwise_append.2
  refine ⟨?_, ?_, ?_⟩
  · apply List.Pairwise.imp_of_mem ?_
      (List.sorted_insertionSort priorityLE
        (units.filter (fun u => u.deliverySkuId.isSome)))
    intro a b ha _ hr
    have ha' : a.deliverySkuId.isSome = true :=
      (List.mem_filter.mp ((List.mem_insertionSort priorityLE).mp ha)).2
    exact ⟨fun _ => ha', fun _ => hr⟩
  · apply List.Pairwise.imp_of_mem ?_
      (List.sorted_insertionSort priorityLE
        (units.filter (fun u => u.deliverySkuId.isNone)))
    intro a b _ hb hr
    have hb' : b.deliverySkuId.isNone = true :=
      (List.mem_filter.mp ((List.mem_insertionSort priorityLE).mp hb)).2
    refine ⟨fun hbs => ?_, fun _ => hr⟩
    exfalso
    simp [Option.isNone_iff_eq_none] at hb'
    simp [hb'] at hbs
  · intro a ha b hb
    have ha' : a.deliverySkuId.isSome = true :=
      (List.mem_filter.mp ((List.mem_insertionSort priorityLE).mp ha)).2
    have hb' : b.deliverySkuId.isNone = true :=
      (List.mem_filter.mp ((List.mem_insertionSort priorityLE).mp hb)).2
    have hb'' : b.deliverySkuId.isSome = false := by
      simp [Option.isNone_iff_eq_none] at hb'
      simp [hb']
    refine ⟨fun hbs => ?_, fun heq => ?_⟩
    · rw [hb''] at hbs; exact absurd hbs (by simp)
    · rw [ha', hb''] at heq; exact absurd heq (by simp)

/-! ## Claim C1 -/

/-- C1: For every partial-cancellation apportionment with requested refund
amount `R ≥ 0` over any set of eligible point credits (all balances
non-negative), the record written by `set_partial_cancelation_outstandings`
deducts no credit by more than its current balance, every deducted credit
keeps `refund_amount + curr_point_amount` equal to its original value and a
non-negative `curr_point_amount`, and the sum of all point deductions plus
the gateway refund amount written to the record equals `R` exactly. -/
theorem set_partial_cancelation_apportions_exactly
    (units : List DeliveryPointUnit) (R : ℚ) (hR : 0 ≤ R)
    (hunits : ∀ u ∈ units, 0 ≤ u.currPointAmount) :
    List.Forall₂ Deducted (set_partial_cancelation_outstandings units R).1
      ((pointUnitsInProcessingOrder units).take
        (set_partial_cancelation_outstandings units R).1.length) ∧
    (((pointUnitsInProcessingOrder units).take
        (set_partial_cancelation_outstandings units R).1.length).map
          (·.currPointAmount)).sum -
      ((set_partial_cancelation_outstandings units R).1.map
          (·.currPointAmount)).sum +
      (set_partial_cancelation_outstandings units R).2 = R ∧
    0 ≤ (set_partial_cancelation_outstandings units R).2 := by
  have hL : ∀ u ∈ pointUnitsInProcessingOrder units, 0 ≤ u.currPointAmount :=
    fun u hu => hunits u (mem_of_mem_processingOrder hu)
  exact ⟨apportionPoints_deducted _ R hR hL, apportionPoints_sum _ R,
    apportionPoints_pg_nonneg _ R hR⟩

/-- The two order-wide credits of the spec's scenario E: priority 1 with
balance 2000 and priority 2 with balance 5000. -/
def scenarioECredit1 : DeliveryPointUnit :=
  { id := "TPU1", deliverySkuId := none, priority := 1,
    currPointAmount := 2000, refundAmount := 0, processed := false }

def scenarioECredit2 : DeliveryPointUnit :=
  { id := "TPU2", deliverySkuId := none, priority := 2,
    currPointAmount := 5000, refundAmount := 0, processed := false }

def scenarioECredits : List DeliveryPointUnit :=
  [scenarioECredit1, scenarioECredit2]

theorem set_partial_cancelation_apportions_exactly_witness :
    (0 ≤ (4000 : ℚ) ∧ ∀ u ∈ scenarioECredits, 0 ≤ u.currPointAmount) ∧
    (List.Forall₂ Deducted (set_partial_cancelation_outstandings scenarioECredits 4000).1
      ((pointUnitsInProcessingOrder scenarioECredits).take
        (set_partial_cancelation_outstandings scenarioECredits 4000).1.length) ∧
    (((pointUnitsInProcessingOrder scenarioECredits).take
        (set_partial_cancelation_outstandings scenarioECredits 4000).1.length).map
          (·.currPointAmount)).sum -
      ((set_partial_cancelation_outstandings scenarioECredits 4000).1.map
          (·.currPointAmount)).sum +
      (set_partial_cancelation_outstandings scenarioECredits 4000).2 = 4000 ∧
    0 ≤ (set_partial_cancelation_outstandings scenarioECredits 4000).2) :=
  ⟨⟨by norm_num, by decide⟩,
    set_partial_cancelation_apportions_exactly scenarioECredits 4000
      (by norm_num) (by decide)⟩

/-! ## Claim C2 -/

/-- A sku-scoped credit with the numerically higher priority 2. -/
def mixedScopeSkuCredit : DeliveryPointUnit :=
  { id := "SPU1", deliverySkuId := some "SKU1", priority := 2,
    currPointAmount := 10, refundAmount := 0, processed := false }

/-- An order-wide credit with the lower priority value 1. -/
def mixedScopeOrderCredit : DeliveryPointUnit :=
  { id := "TPU3", deliverySkuId := none, priority := 1,
    currPointAmount := 10, refundAmount := 0, processed := false }

def mixedScopeCredits : List DeliveryPointUnit :=
  [mixedScopeSkuCredit, mixedScopeOrderCredit]

/-- C2 counterexample: with one sku-scoped credit of priority 2 (balance 10)
and one order-wide credit of priority 1 (balance 10), a refund of 5 is
deducted entirely from the priority-2 credit — the record holds only
`SPU1` with a deduction of 5 — while the eligible priority-1 credit keeps
its full balance. Strictly ascending priority across scopes is violated. -/
theorem priority_order_counterexample :
    (set_partial_cancelation_outstandings mixedScopeCredits 5).1 =
      [{ id := "SPU1", deliverySkuId := some "SKU1", priority := 2,
         currPointAmount := 5, refundAmount := 5, processed := false }] ∧
    (set_partial_cancelation_outstandings mixedScopeCredits 5).2 = 0 ∧
    mixedScopeOrderCredit.priority < mixedScopeSkuCredit.priority ∧
    0 < mixedScopeOrderCredit.currPointAmount ∧
    (∀ u ∈ (set_partial_cancelation_outstandings mixedScopeCredits 5).1,
      u.id ≠ mixedScopeOrderCredit.id) := by
  refine ⟨?_, ?_, by decide, by decide, ?_⟩
  · simp [set_partial_cancelation_outstandings, pointUnitsInProcessingOrder,
      mixedScopeCredits, mixedScopeSkuCredit, mixedScopeOrderCredit,
      apportionPoints, priorityLE]
    norm_num [apportionPoints]
  · simp [set_partial_cancelation_outstandings, pointUnitsInProcessingOrder,
      mixedScopeCredits, mixedScopeSkuCredit, mixedScopeOrderCredit,
      apportionPoints, priorityLE]
    norm_num [apportionPoints]
  · intro u hu
    simp only [set_partial_cancelation_outstandings, pointUnitsInProcessingOrder,
      mixedScopeCredits] at hu
    revert hu
    norm_num [mixedScopeSkuCredit, mixedScopeOrderCredit, apportionPoints,
      priorityLE, List.insertionSort, List.orderedInsert, List.filter_cons]
    rintro rfl
    decide

/-- C2 amended: credits are consumed in the processing order the code
builds — every sku-scoped credit before every order-wide credit, ascending
priority within each scope class — and the written record is a prefix of
that order in which every entry but the last is fully consumed, so a credit
is deducted only once every credit before it in the processing order has a
zero remaining balance. -/
theorem priority_order_per_scope (units : List DeliveryPointUnit) (R : ℚ) :
    List.Pairwise ProcessedBefore (pointUnitsInProcessingOrder units) ∧
    List.Forall₂
      (fun after before : DeliveryPointUnit => after.id = before.id ∧
        after.deliverySkuId = before.deliverySkuId ∧
        after.priority = before.priority)
      (set_partial_cancelation_outstandings units R).1
      ((pointUnitsInProcessingOrder units).take
        (set_partial_cancelation_outstandings units R).1.length) ∧
    (∀ x ∈ (set_partial_cancelation_outstandings units R).1.dropLast,
      x.currPointAmount = 0) :=
  ⟨pointUnitsInProcessingOrder_pairwise units, apportionPoints_same _ R,
    apportionPoints_prefix_consumed _ R⟩

/-! ## Claim C8 -/

/-- One order-wide credit with balance 100, nothing refunded yet. -/
def retryCredit : DeliveryPointUnit :=
  { id := "PU1", deliverySkuId := none, priority := 1,
    currPointAmount := 100, refundAmount := 0, processed := false }

/-- C8 (code bug): applying `deduct_point_units` twice against the
outstandings record produced by one apportionment of 50 deducts the 50
twice. The record written back by the first call marks its entry
`processed := true`, but the deduction loop never reads the flag, so the
retry leaves the credit at 0 instead of 50. -/
theorem deduct_point_units_not_idempotent :
    ((deduct_point_units [retryCredit]
        (set_partial_cancelation_outstandings [retryCredit] 50).1).1.map
          (·.currPointAmount) = [50]) ∧
    ((deduct_point_units [retryCredit]
        (set_partial_cancelation_outstandings [retryCredit] 50).1).2.map
          (·.processed) = [true]) ∧
    ((deduct_point_units
        (deduct_point_units [retryCredit]
          (set_partial_cancelation_outstandings [retryCredit] 50).1).1
        (deduct_point_units [retryCredit]
          (set_partial_cancelation_outstandings [retryCredit] 50).1).2).1.map
          (·.currPointAmount) = [0]) := by
  have hrec : (set_partial_cancelation_outstandings [retryCredit] 50).1 =
      [{ id := "PU1", deliverySkuId := none, priority := 1,
         currPointAmount := 50, refundAmount := 50, processed := false }] := by
    simp [set_partial_cancelation_outstandings, pointUnitsInProcessingOrder,
      retryCredit, List.filter_cons, apportionPoints]
    norm_num [apportionPoints]
  rw [hrec]
  refine ⟨?_, ?_, ?_⟩ <;>
    norm_num [deduct_point_units, retryCredit, List.find?]

/-! ## Claim C3 -/

/-- One countable line with quantity 7 (unit price 1000, so a cached line
value of 7000). -/
def unitChargeSku : DeliverySku :=
  { id := "S1", status := "check_required", sellPrice := 1000, quantity := 7,
    skuPvAmount := 7000 }

/-- A `unit_charge` product, base fee 3000, charge unit size 5, owning the
single quantity-7 line. -/
def unitChargeProduct : DeliveryProduct :=
  { id := "UP1", hasDeliveryInfo := true, deliveryPricingMethod := "unit_charge",
    baseDeliveryFee := 3000, chargeStandard := 5,
    refundDeliveryFee := 0, refundDeliveryFeeIfFreeDelivery := 0,
    numberOfSkusToConsider := 0, numberOfQuantityToConsider := 0,
    productPvAmount := 0, currCalculatedProductDeliveryFee := 0,
    skus := [unitChargeSku] }

/-- The product state after its fee run: both cached counts at 1 (one
countable sku), PV 7000, fee `3000 * ceil(1/5) = 3000`. -/
def unitChargeProductCalc : DeliveryProduct :=
  { unitChargeProduct with
    numberOfSkusToConsider := 1
    numberOfQuantityToConsider := 1
    productPvAmount := 7000
    currCalculatedProductDeliveryFee := 3000 }

/-- A virtual group around that product after its fee run, with a region
surcharge of 1000 configured (two-tier schedule, JEJU). -/
def unitChargeGroup : DeliveryGroup :=
  { supplierDeliveryGroupId := "", calculationMethod := "",
    regionId := 2, regionDivisionLevel := some 2,
    division2Fee := 1000, division3JejuFee := 0, division3OutsideJejuFee := 0,
    isAdditionalPricingSet := true, lossFee := 0,
    currCalculatedGroupDeliveryFee := 0, currGroupDeliveryDiscount := 0,
    currRegionAdditionalDeliveryFee := 0,
    products := [(unitChargeProduct.calculate_delivery_fee).1] }

/-- C3 (code bug): the counting loop increments
`number_of_quantity_to_consider` by 1 per countable sku instead of by the
sku's quantity, so the quantity-7 line counts as 1 and the fee comes out
`3000 * ceil(1/5) = 3000`, not `3000 * ceil(7/5) = 6000`. The group-level
virtual-group branch of the very same engine derives the box count from the
summed quantities and multiplies the 1000 surcharge by `ceil(7/5) = 2` for
the identical state. -/
theorem unit_charge_counts_skus_not_quantity :
    (unitChargeProduct.calculate_delivery_fee).1.numberOfQuantityToConsider = 1 ∧
    (unitChargeProduct.calculate_delivery_fee).2 = false ∧
    (unitChargeProduct.calculate_delivery_fee).1.currCalculatedProductDeliveryFee
      = 3000 ∧
    (3000 : ℚ) * ((⌈(7 : ℚ) / 5⌉ : ℤ) : ℚ) = 6000 ∧
    unitChargeGroup.calculate_delivery_fee.currRegionAdditionalDeliveryFee
      = 2000 := by
  have hceil1 : (⌈((5 : ℚ))⁻¹⌉ : ℤ) = 1 := by
    rw [Int.ceil_eq_iff] <;> norm_num
  have hceil7 : (⌈(7 : ℚ) / 5⌉ : ℤ) = 2 := by
    rw [Int.ceil_eq_iff] <;> norm_num
  have hceil7' : (⌈(7 : ℚ) * (5 : ℚ)⁻¹⌉ : ℤ) = 2 := by
    rw [Int.ceil_eq_iff] <;> norm_num
  have hprod : unitChargeProduct.calculate_delivery_fee =
      (unitChargeProductCalc, false) := by
    simp [DeliveryProduct.calculate_delivery_fee, unitChargeProduct,
      unitChargeProductCalc, DeliveryProduct.countableSkus, countable,
      notCountableStatuses, unitChargeSku, List.filter_cons, hceil1]
  refine ⟨by rw [hprod]; rfl, by rw [hprod], by rw [hprod]; rfl, ?_, ?_⟩
  · rw [hceil7]; norm_num
  · have hgp : unitChargeGroup.products = [unitChargeProductCalc] := by
      show [(unitChargeProduct.calculate_delivery_fee).1] = _
      rw [hprod]
    rw [show unitChargeGroup.calculate_delivery_fee =
        DeliveryGroup.calculate_delivery_fee
          { unitChargeGroup with products := [unitChargeProductCalc] } by
      rw [show ({ unitChargeGroup with products := [unitChargeProductCalc] } :
            DeliveryGroup) = unitChargeGroup by
        rw [show unitChargeGroup =
            { unitChargeGroup with
              products := [(unitChargeProduct.calculate_delivery_fee).1] }
          from rfl, hprod]]]
    simp [DeliveryGroup.calculate_delivery_fee, unitChargeGroup,
      unitChargeProductCalc, unitChargeProduct, DeliveryProduct.countableSkus,
      countable, notCountableStatuses, unitChargeSku, List.filter_cons,
      DeliveryGroup.get_original_region_additional_delivery_fee,
      calculate_region_additional_delivery_fee, hceil7, hceil7']
    norm_num [hceil7, hceil7']

/-! ## Claim C9 -/

/-- A countable line for the misconfigured product. -/
def staleCacheSku : DeliverySku :=
  { id := "S2", status := "check_required", sellPrice := 1000, quantity := 1,
    skuPvAmount := 1000 }

/-- A product with a delivery schedule, one countable line, an unknown
pricing method `"per_weight"`, and stale cached aggregate fields. -/
def bogusMethodProduct : DeliveryProduct :=
  { id := "BP1", hasDeliveryInfo := true, deliveryPricingMethod := "per_weight",
    baseDeliveryFee := 3000, chargeStandard := 5,
    refundDeliveryFee := 0, refundDeliveryFeeIfFreeDelivery := 0,
    numberOfSkusToConsider := 5, numberOfQuantityToConsider := 5,
    productPvAmount := 9999, currCalculatedProductDeliveryFee := 1234,
    skus := [staleCacheSku] }

/-- C9 counterexample: the unknown method raises (second component `true`),
but the cached countable-count field has been overwritten from its stale
pre-call value 5 to the recomputed 1 before the raise — the call is not
mutation-free. The fee field itself is left unchanged. -/
theorem invalid_pricing_mutates_cached_counts :
    (bogusMethodProduct.calculate_delivery_fee).2 = true ∧
    bogusMethodProduct.numberOfSkusToConsider = 5 ∧
    (bogusMethodProduct.calculate_delivery_fee).1.numberOfSkusToConsider = 1 ∧
    (bogusMethodProduct.calculate_delivery_fee).1.currCalculatedProductDeliveryFee
      = 1234 := by
  refine ⟨?_, by decide, ?_, ?_⟩ <;>
    simp [DeliveryProduct.calculate_delivery_fee, bogusMethodProduct,
      DeliveryProduct.countableSkus, countable, notCountableStatuses,
      staleCacheSku, List.filter_cons]

/-- C9 amended: for a product with a delivery schedule and at least one
countable line, a pricing method outside the four known values (the empty
string included) raises `InvalidPricingMethod` and the fee field is not
assigned — but the cached countable-count, countable-quantity and PV fields
are refreshed from the current skus before the error propagates, not left
at their pre-call values. -/
theorem invalid_pricing_raises_after_refreshing_counts (p : DeliveryProduct)
    (hinfo : p.hasDeliveryInfo = true)
    (hcount : p.countableSkus.length ≠ 0)
    (hmethod : p.deliveryPricingMethod ∉
      ["conditional_charge", "unit_charge", "regular_charge", "free"]) :
    p.calculate_delivery_fee =
      ({ p with
          numberOfSkusToConsider := p.countableSkus.length
          numberOfQuantityToConsider := p.countableSkus.length
          productPvAmount := (p.countableSkus.map (·.skuPvAmount)).sum }, true) := by
  have h1 : p.deliveryPricingMethod ≠ "conditional_charge" := by
    intro h; exact hmethod (by rw [h]; simp)
  have h2 : p.deliveryPricingMethod ≠ "unit_charge" := by
    intro h; exact hmethod (by rw [h]; simp)
  have h3 : p.deliveryPricingMethod ≠ "regular_charge" := by
    intro h; exact hmethod (by rw [h]; simp)
  have h4 : p.deliveryPricingMethod ≠ "free" := by
    intro h; exact hmethod (by rw [h]; simp)
  simp [DeliveryProduct.calculate_delivery_fee, hinfo, hcount, h1, h2, h3, h4]

theorem invalid_pricing_raises_after_refreshing_counts_witness :
    (bogusMethodProduct.hasDeliveryInfo = true ∧
      bogusMethodProduct.countableSkus.length ≠ 0 ∧
      bogusMethodProduct.deliveryPricingMethod ∉
        ["conditional_charge", "unit_charge", "regular_charge", "free"]) ∧
    bogusMethodProduct.calculate_delivery_fee =
      ({ bogusMethodProduct with
          numberOfSkusToConsider := bogusMethodProduct.countableSkus.length
          numberOfQuantityToConsider := bogusMethodProduct.countableSkus.length
          productPvAmount :=
            (bogusMethodProduct.countableSkus.map (·.skuPvAmount)).sum }, true) :=
  ⟨⟨by decide, by decide, by decide⟩,
    invalid_pricing_raises_after_refreshing_counts bogusMethodProduct
      (by decide) (by decide) (by decide)⟩

/-! ## Claim C6 -/

/-- C6: when no sibling product of a group has any countable quantity, the
group's fee run writes exactly 0 to all three outputs, whatever raw values
were cached on the group before. -/
theorem group_fee_zero_when_nothing_countable (g : DeliveryGroup)
    (h : ∀ p ∈ g.products, p.numberOfQuantityToConsider = 0) :
    g.calculate_delivery_fee.currCalculatedGroupDeliveryFee = 0 ∧
    g.calculate_delivery_fee.currGroupDeliveryDiscount = 0 ∧
    g.calculate_delivery_fee.currRegionAdditionalDeliveryFee = 0 := by
  have hsum : (g.products.map (·.numberOfQuantityToConsider)).sum = 0 := by
    apply List.sum_eq_zero
    intro x hx
    rcases List.mem_map.mp hx with ⟨p, hp, rfl⟩
    exact h p hp
  simp [DeliveryGroup.calculate_delivery_fee, hsum]

/-- A product whose lines are all cancelled, with stale cached fee values. -/
def allCancelledProduct : DeliveryProduct :=
  { id := "CP1", hasDeliveryInfo := true, deliveryPricingMethod := "regular_charge",
    baseDeliveryFee := 7000, chargeStandard := 0,
    refundDeliveryFee := 0, refundDeliveryFeeIfFreeDelivery := 0,
    numberOfSkusToConsider := 0, numberOfQuantityToConsider := 0,
    productPvAmount := 0, currCalculatedProductDeliveryFee := 7000,
    skus := [{ id := "S3", status := "refund_finished_order_canceled",
               sellPrice := 1000, quantity := 1, skuPvAmount := 0 }] }

/-- A group of that product with nonzero cached raw fee, discount and
surcharge. -/
def allCancelledGroup : DeliveryGroup :=
  { supplierDeliveryGroupId := "G9", calculationMethod := "max",
    regionId := 2, regionDivisionLevel := some 2,
    division2Fee := 3000, division3JejuFee := 0, division3OutsideJejuFee := 0,
    isAdditionalPricingSet := true, lossFee := 0,
    currCalculatedGroupDeliveryFee := 8000, currGroupDeliveryDiscount := 900,
    currRegionAdditionalDeliveryFee := 500,
    products := [allCancelledProduct] }

theorem group_fee_zero_when_nothing_countable_witness :
    (∀ p ∈ allCancelledGroup.products, p.numberOfQuantityToConsider = 0) ∧
    (allCancelledGroup.calculate_delivery_fee.currCalculatedGroupDeliveryFee = 0 ∧
      allCancelledGroup.calculate_delivery_fee.currGroupDeliveryDiscount = 0 ∧
      allCancelledGroup.calculate_delivery_fee.currRegionAdditionalDeliveryFee = 0) :=
  ⟨by decide, group_fee_zero_when_nothing_countable allCancelledGroup (by decide)⟩

/-! ## Frame lemmas for the fee-difference simulation -/

/-- A product fee run never touches the product's sku list. -/
theorem calculate_delivery_fee_skus (p : DeliveryProduct) :
    (p.calculate_delivery_fee).1.skus = p.skus := by
  simp only [DeliveryProduct.calculate_delivery_fee]
  split_ifs <;> rfl

/-- Recomputing every product of a list preserves the sku lists. -/
theorem calcProducts_skus :
    ∀ {ps qs : List DeliveryProduct}, calcProducts ps = some qs →
      qs.map (·.skus) = ps.map (·.skus) := by
  intro ps
  induction ps with
  | nil => intro qs h; simp only [calcProducts, Option.some.injEq] at h; rw [← h]
  | cons p rest ih =>
    intro qs h
    simp only [calcProducts] at h
    by_cases hr : (p.calculate_delivery_fee).2
    · rw [if_pos hr] at h; exact absurd h (by simp)
    · rw [if_neg hr] at h
      rcases Option.map_eq_some'.mp h with ⟨tail, htail, rfl⟩
      simp only [List.map_cons, calculate_delivery_fee_skus, ih htail]

/-- The group-level fee run only assigns the three `curr` outputs; the
product list is untouched. -/
theorem calculate_delivery_fee_products (g : DeliveryGroup) :
    g.calculate_delivery_fee.products = g.products := by
  simp only [DeliveryGroup.calculate_delivery_fee]
  split_ifs <;> try rfl
  all_goals split <;> try rfl
  all_goals split_ifs <;> rfl

/-- The group-level fee run preserves `loss_fee`. -/
theorem calculate_delivery_fee_lossFee (g : DeliveryGroup) :
    g.calculate_delivery_fee.lossFee = g.lossFee := by
  simp only [DeliveryGroup.calculate_delivery_fee]
  split_ifs <;> try rfl
  all_goals split <;> try rfl
  all_goals split_ifs <;> rfl

/-- `calculate_delivery_fee_on_group` preserves the flattened sku list. -/
theorem calculate_delivery_fee_on_group_allSkus {g g' : DeliveryGroup}
    (h : g.calculate_delivery_fee_on_group = some g') :
    g'.allSkus = g.allSkus := by
  rcases Option.map_eq_some'.mp h with ⟨qs, hqs, rfl⟩
  simp only [DeliveryGroup.allSkus, calculate_delivery_fee_products]
  rw [calcProducts_skus hqs]

/-- `calculate_delivery_fee_on_group` preserves `loss_fee`. -/
theorem calculate_delivery_fee_on_group_lossFee {g g' : DeliveryGroup}
    (h : g.calculate_delivery_fee_on_group = some g') :
    g'.lossFee = g.lossFee := by
  rcases Option.map_eq_some'.mp h with ⟨qs, hqs, rfl⟩
  rw [calculate_delivery_fee_lossFee]

/-- `setSkuStatus` preserves `loss_fee`. -/
theorem setSkuStatus_lossFee (g : DeliveryGroup) (skuId st : String) :
    (g.setSkuStatus skuId st).lossFee = g.lossFee := rfl

/-- `setSkuStatus` maps the flattened sku list pointwise. -/
theorem setSkuStatus_allSkus (g : DeliveryGroup) (skuId st : String) :
    (g.setSkuStatus skuId st).allSkus = g.allSkus.map
      (fun s => if s.id == skuId then { s with status := st } else s) := by
  simp only [DeliveryGroup.allSkus, DeliveryGroup.setSkuStatus, List.map_map,
    List.map_flatten]
  rfl

/-- Rewriting one sku's status commutes with looking that sku up. -/
theorem find?_status_update :
    ∀ (l : List DeliverySku) (skuId st : String),
      (l.map (fun s => if s.id == skuId then { s with status := st } else s)).find?
        (fun s => s.id == skuId) =
      (l.find? (fun s => s.id == skuId)).map (fun s => { s with status := st })
  | [], _, _ => rfl
  | s :: rest, skuId, st => by
    simp only [List.map_cons, List.find?_cons]
    by_cases h : s.id = skuId
    · simp [h]
    · have hb : (s.id == skuId) = false := by simp [h]
      have hhead : (if s.id == skuId then { s with status := st } else s) = s := by
        simp [h]
      rw [hhead, hb]
      exact find?_status_update rest skuId st

/-- Looking a sku up after `setSkuStatus` finds the same sku with the new
status written when its id matches. -/
theorem findSku_setSkuStatus (g : DeliveryGroup) (skuId st : String) :
    (g.setSkuStatus skuId st).findSku skuId =
      (g.findSku skuId).map (fun s => { s with status := st }) := by
  rw [DeliveryGroup.findSku, setSkuStatus_allSkus, DeliveryGroup.findSku,
    find?_status_update]

/-- Status lookups go through `calculate_delivery_fee_on_group` unchanged. -/
theorem skuStatus_on_group {g g' : DeliveryGroup} (skuId : String)
    (h : g.calculate_delivery_fee_on_group = some g') :
    g'.skuStatus skuId = g.skuStatus skuId := by
  simp only [DeliveryGroup.skuStatus, DeliveryGroup.findSku,
    calculate_delivery_fee_on_group_allSkus h]

/-- `setSkuStatus` preserves the three `curr` aggregate fields. -/
theorem setSkuStatus_aggregates (g : DeliveryGroup) (skuId st : String) :
    (g.setSkuStatus skuId st).currCalculatedGroupDeliveryFee =
        g.currCalculatedGroupDeliveryFee ∧
      (g.setSkuStatus skuId st).currGroupDeliveryDiscount =
        g.currGroupDeliveryDiscount ∧
      (g.setSkuStatus skuId st).currRegionAdditionalDeliveryFee =
        g.currRegionAdditionalDeliveryFee :=
  ⟨rfl, rfl, rfl⟩

/-- Sku lookups go through `calculate_delivery_fee_on_group` unchanged. -/
theorem findSku_on_group {g g' : DeliveryGroup} (skuId : String)
    (h : g.calculate_delivery_fee_on_group = some g') :
    g'.findSku skuId = g.findSku skuId := by
  simp only [DeliveryGroup.findSku, calculate_delivery_fee_on_group_allSkus h]

/-- The status read back for the written sku after `setSkuStatus`. -/
theorem skuStatus_setSkuStatus (g : DeliveryGroup) (skuId st : String) :
    (g.setSkuStatus skuId st).skuStatus skuId =
      (g.skuStatus skuId).map (fun _ => st) := by
  simp only [DeliveryGroup.skuStatus, findSku_setSkuStatus, Option.map_map]
  rfl

/-- Decomposition of a successful `get_delivery_fee_difference` run into its
intermediate states. -/
theorem fee_difference_decomposition {g g4 : DeliveryGroup}
    {skuId ctx : String} {d : ℚ}
    (h : get_delivery_fee_difference g skuId ctx = some (g4, d)) :
    ∃ (g1 g3 : DeliveryGroup) (st0 tgt : String),
      g.calculate_delivery_fee_on_group = some g1 ∧
      g1.skuStatus skuId = some st0 ∧
      statusMapper ctx = some tgt ∧
      (g1.setSkuStatus skuId tgt).calculate_delivery_fee_on_group = some g3 ∧
      g4 = g3.setSkuStatus skuId st0 ∧ d = g1.netFee - g3.netFee := by
  simp only [get_delivery_fee_difference, Option.bind_eq_bind,
    Option.bind_eq_some, Option.some.injEq, Prod.mk.injEq] at h
  obtain ⟨g1, h1, st0, hst, tgt, hmap, g3, h3, hg4, hd⟩ := h
  exact ⟨g1, g3, st0, tgt, h1, hst, hmap, h3, hg4.symm, hd.symm⟩

/-- A successful fee-delta simulation preserves the group's `loss_fee`. -/
theorem fee_difference_lossFee {g g4 : DeliveryGroup} {skuId ctx : String}
    {d : ℚ} (h : get_delivery_fee_difference g skuId ctx = some (g4, d)) :
    g4.lossFee = g.lossFee := by
  obtain ⟨g1, g3, st0, tgt, h1, _, _, h3, hg4, _⟩ := fee_difference_decomposition h
  rw [hg4, setSkuStatus_lossFee, calculate_delivery_fee_on_group_lossFee h3,
    setSkuStatus_lossFee, calculate_delivery_fee_on_group_lossFee h1]

/-- A successful fee-delta simulation restores the sku's status. -/
theorem fee_difference_skuStatus {g g4 : DeliveryGroup} {skuId ctx : String}
    {d : ℚ} (h : get_delivery_fee_difference g skuId ctx = some (g4, d)) :
    g4.skuStatus skuId = g.skuStatus skuId := by
  obtain ⟨g1, g3, st0, tgt, h1, hst, _, h3, hg4, _⟩ := fee_difference_decomposition h
  have hg1 : g1.skuStatus skuId = g.skuStatus skuId := skuStatus_on_group skuId h1
  have hg3 : g3.skuStatus skuId = (g1.skuStatus skuId).map (fun _ => tgt) := by
    rw [skuStatus_on_group skuId h3, skuStatus_setSkuStatus]
  rw [hg4, skuStatus_setSkuStatus, hg3, hst, ← hg1, hst]
  rfl

/-! ## Claim C10 -/

/-- C10: for every grouped line and every mapped refund context, the
fee-delta simulation returns with the line's status restored to its exact
pre-call value, while the group's three `curr` aggregates keep the values of
the second recomputation — the one run with the line flipped to its
cancelled status — and the returned delta is the net-fee difference between
the two recomputations. -/
theorem fee_difference_restores_status_not_aggregates
    (g g1 g3 : DeliveryGroup) (skuId ctx st0 tgt : String)
    (h1 : g.calculate_delivery_fee_on_group = some g1)
    (hst : g.skuStatus skuId = some st0)
    (hmap : statusMapper ctx = some tgt)
    (h3 : (g1.setSkuStatus skuId tgt).calculate_delivery_fee_on_group = some g3) :
    get_delivery_fee_difference g skuId ctx =
      some (g3.setSkuStatus skuId st0, g1.netFee - g3.netFee) ∧
    (g3.setSkuStatus skuId st0).skuStatus skuId = some st0 ∧
    (g3.setSkuStatus skuId st0).currCalculatedGroupDeliveryFee =
      g3.currCalculatedGroupDeliveryFee ∧
    (g3.setSkuStatus skuId st0).currGroupDeliveryDiscount =
      g3.currGroupDeliveryDiscount ∧
    (g3.setSkuStatus skuId st0).currRegionAdditionalDeliveryFee =
      g3.currRegionAdditionalDeliveryFee := by
  have hst1 : g1.skuStatus skuId = some st0 := by
    rw [skuStatus_on_group skuId h1]; exact hst
  refine ⟨?_, ?_, rfl, rfl, rfl⟩
  · simp [get_delivery_fee_difference, h1, hst1, hmap, h3]
  · have hg3 : g3.skuStatus skuId = (g1.skuStatus skuId).map (fun _ => tgt) := by
      rw [skuStatus_on_group skuId h3, skuStatus_setSkuStatus]
    rw [skuStatus_setSkuStatus, hg3, hst1]
    rfl

/-! ## Claim C5 -/

/-- C5: a mapped partial-cancellation refund computation whose simulated
delta is negative with the line's own value strictly below `|delta|` is
rejected outright: the business result is `none`, no refund price is
produced, the group's `loss_fee` is not written, and the line's status is
back at its pre-call value. (The group's cached aggregates do hold the
simulation's values — that frame effect is claim C10.) -/
theorem negative_delta_beyond_line_value_rejected
    (g g4 : DeliveryGroup) (skuId ctx : String) (sku : DeliverySku) (diff : ℚ)
    (hsku : g.findSku skuId = some sku)
    (hdiff : get_delivery_fee_difference g skuId ctx = some (g4, diff))
    (hneg : diff < 0)
    (hsmall : sku.sellPrice * (sku.quantity : ℚ) < |diff|) :
    calculate_refund_price_on_partial_cancelation g skuId ctx = some (g4, none) ∧
    g4.lossFee = g.lossFee ∧
    g4.skuStatus skuId = g.skuStatus skuId := by
  refine ⟨?_, fee_difference_lossFee hdiff, fee_difference_skuStatus hdiff⟩
  simp [calculate_refund_price_on_partial_cancelation, hsku, hdiff, hneg, hsmall]

/-! ## Claim C4 -/

/-- C4 amended: loss-fee absorption is keyed to the two backoffice
supplier-rejection contexts (not to single-product virtual groups), and it
happens only when the rejection check has already passed, i.e. when the
line's value is at least `|delta|`: then `loss_fee := |delta|`, the delta is
zeroed and the refund price is exactly the line's value. -/
theorem loss_fee_absorption_on_backoffice_rejection
    (g g4 : DeliveryGroup) (skuId ctx : String) (sku : DeliverySku) (diff : ℚ)
    (hsku : g.findSku skuId = some sku)
    (hdiff : get_delivery_fee_difference g skuId ctx = some (g4, diff))
    (hctx : ctx = "backoffice_order_cancel_on_supplier_check_rejection" ∨
            ctx = "backoffice_order_cancel_on_supplier_ship_rejection")
    (hneg : diff < 0)
    (hbig : |diff| ≤ sku.sellPrice * (sku.quantity : ℚ)) :
    calculate_refund_price_on_partial_cancelation g skuId ctx =
      some ({ g4 with lossFee := |diff| },
        some (sku.sellPrice * (sku.quantity : ℚ))) := by
  have hno : ¬(diff < 0 ∧ sku.sellPrice * (sku.quantity : ℚ) < |diff|) := by
    rintro ⟨_, hlt⟩
    exact absurd hbig (not_le.mpr hlt)
  simp [calculate_refund_price_on_partial_cancelation, hsku, hdiff, hno, hctx, hneg, hbig]

/-! ## The worked cancellation scenario shared by C4, C5 and C10

A single-product virtual group with a `conditional_charge` product
(threshold 5000, base fee 3000) and two countable lines worth 2000 and
4000. Together they clear the threshold, so the current fee is 0; removing
either line drops the PV below the threshold and the fee rises to 3000, a
delta of −3000. -/

def cancelSkuA : DeliverySku :=
  { id := "A", status := "check_required", sellPrice := 2000, quantity := 1,
    skuPvAmount := 2000 }

def cancelSkuB : DeliverySku :=
  { id := "B", status := "check_required", sellPrice := 4000, quantity := 1,
    skuPvAmount := 4000 }

def thresholdProduct : DeliveryProduct :=
  { id := "P1", hasDeliveryInfo := true,
    deliveryPricingMethod := "conditional_charge",
    baseDeliveryFee := 3000, chargeStandard := 5000,
    refundDeliveryFee := 0, refundDeliveryFeeIfFreeDelivery := 0,
    numberOfSkusToConsider := 0, numberOfQuantityToConsider := 0,
    productPvAmount := 0, currCalculatedProductDeliveryFee := 0,
    skus := [cancelSkuA, cancelSkuB] }

def thresholdGroup : DeliveryGroup :=
  { supplierDeliveryGroupId := "", calculationMethod := "",
    regionId := 1, regionDivisionLevel := none,
    division2Fee := 0, division3JejuFee := 0, division3OutsideJejuFee := 0,
    isAdditionalPricingSet := false, lossFee := 0,
    currCalculatedGroupDeliveryFee := 0, currGroupDeliveryDiscount := 0,
    currRegionAdditionalDeliveryFee := 0, products := [thresholdProduct] }

/-- The product after the first recomputation: both lines countable,
PV 6000 ≥ 5000, fee 0. -/
def thresholdProductCalc : DeliveryProduct :=
  { thresholdProduct with
    numberOfSkusToConsider := 2
    numberOfQuantityToConsider := 2
    productPvAmount := 6000 }

def thresholdGroupCalc : DeliveryGroup :=
  { thresholdGroup with products := [thresholdProductCalc] }

/-- The product recomputed with line A flipped to its cancelled status:
PV 4000 < 5000, fee 3000. -/
def thresholdProductAfterA : DeliveryProduct :=
  { thresholdProduct with
    skus := [{ cancelSkuA with status := "refund_finished_check_rejected" },
             cancelSkuB]
    numberOfSkusToConsider := 1
    numberOfQuantityToConsider := 1
    productPvAmount := 4000
    currCalculatedProductDeliveryFee := 3000 }

def thresholdGroupAfterA : DeliveryGroup :=
  { thresholdGroup with
    products := [thresholdProductAfterA]
    currCalculatedGroupDeliveryFee := 3000 }

/-- The group state `get_delivery_fee_difference` returns for line A: line A
back at `check_required`, the aggregates still at the simulated values. -/
def thresholdGroupSimulatedA : DeliveryGroup :=
  { thresholdGroup with
    products := [{ thresholdProductAfterA with skus := [cancelSkuA, cancelSkuB] }]
    currCalculatedGroupDeliveryFee := 3000 }

/-- The product recomputed with line B flipped to its cancelled status:
PV 2000 < 5000, fee 3000. -/
def thresholdProductAfterB : DeliveryProduct :=
  { thresholdProduct with
    skus := [cancelSkuA,
             { cancelSkuB with status := "refund_finished_check_rejected" }]
    numberOfSkusToConsider := 1
    numberOfQuantityToConsider := 1
    productPvAmount := 2000
    currCalculatedProductDeliveryFee := 3000 }

def thresholdGroupAfterB : DeliveryGroup :=
  { thresholdGroup with
    products := [thresholdProductAfterB]
    currCalculatedGroupDeliveryFee := 3000 }

def thresholdGroupSimulatedB : DeliveryGroup :=
  { thresholdGroup with
    products := [{ thresholdProductAfterB with skus := [cancelSkuA, cancelSkuB] }]
    currCalculatedGroupDeliveryFee := 3000 }

theorem thresholdGroup_first_recompute :
    thresholdGroup.calculate_delivery_fee_on_group = some thresholdGroupCalc := by
  have h1 : calcProducts [thresholdProduct] = some [thresholdProductCalc] := by
    simp [calcProducts, thresholdProduct, thresholdProductCalc,
      DeliveryProduct.calculate_delivery_fee, DeliveryProduct.countableSkus,
      countable, notCountableStatuses, cancelSkuA, cancelSkuB, List.filter_cons]
    norm_num
  rw [show thresholdGroup.calculate_delivery_fee_on_group =
      (calcProducts [thresholdProduct]).map
        (fun ps => DeliveryGroup.calculate_delivery_fee
          { thresholdGroup with products := ps }) from rfl, h1, Option.map_some']
  simp [DeliveryGroup.calculate_delivery_fee, thresholdGroupCalc,
    thresholdProductCalc, thresholdProduct, thresholdGroup,
    DeliveryGroup.get_original_region_additional_delivery_fee,
    calculate_region_additional_delivery_fee]

theorem thresholdGroup_second_recompute_A :
    (thresholdGroupCalc.setSkuStatus "A"
        "refund_finished_check_rejected").calculate_delivery_fee_on_group =
      some thresholdGroupAfterA := by
  have hset : thresholdGroupCalc.setSkuStatus "A" "refund_finished_check_rejected" =
      { thresholdGroup with
        products := [{ thresholdProductCalc with
          skus := [{ cancelSkuA with status := "refund_finished_check_rejected" },
                   cancelSkuB] }] } := by
    simp [DeliveryGroup.setSkuStatus, thresholdGroupCalc, thresholdGroup,
      thresholdProductCalc, thresholdProduct, cancelSkuA, cancelSkuB]
  rw [hset]
  have h1 : calcProducts [{ thresholdProductCalc with
      skus := [{ cancelSkuA with status := "refund_finished_check_rejected" },
               cancelSkuB] }] = some [thresholdProductAfterA] := by
    simp [calcProducts, thresholdProduct, thresholdProductCalc,
      thresholdProductAfterA, DeliveryProduct.calculate_delivery_fee,
      DeliveryProduct.countableSkus, countable, notCountableStatuses,
      cancelSkuA, cancelSkuB, List.filter_cons]
    norm_num
  rw [show ({ thresholdGroup with
      products := [{ thresholdProductCalc with
        skus := [{ cancelSkuA with status := "refund_finished_check_rejected" },
                 cancelSkuB] }] } : DeliveryGroup).calculate_delivery_fee_on_group =
    (calcProducts [{ thresholdProductCalc with
        skus := [{ cancelSkuA with status := "refund_finished_check_rejected" },
                 cancelSkuB] }]).map
      (fun ps => DeliveryGroup.calculate_delivery_fee
        { thresholdGroup with products := ps }) from rfl, h1, Option.map_some']
  simp [DeliveryGroup.calculate_delivery_fee, thresholdGroupAfterA,
    thresholdProductAfterA, thresholdProduct, thresholdGroup,
    cancelSkuA, cancelSkuB,
    DeliveryGroup.get_original_region_additional_delivery_fee,
    calculate_region_additional_delivery_fee]

theorem thresholdGroup_second_recompute_B :
    (thresholdGroupCalc.setSkuStatus "B"
        "refund_finished_check_rejected").calculate_delivery_fee_on_group =
      some thresholdGroupAfterB := by
  have hset : thresholdGroupCalc.setSkuStatus "B" "refund_finished_check_rejected" =
      { thresholdGroup with
        products := [{ thresholdProductCalc with
          skus := [cancelSkuA,
                   { cancelSkuB with status := "refund_finished_check_rejected" }] }] } := by
    simp [DeliveryGroup.setSkuStatus, thresholdGroupCalc, thresholdGroup,
      thresholdProductCalc, thresholdProduct, cancelSkuA, cancelSkuB]
  rw [hset]
  have h1 : calcProducts [{ thresholdProductCalc with
      skus := [cancelSkuA,
               { cancelSkuB with status := "refund_finished_check_rejected" }] }] =
      some [thresholdProductAfterB] := by
    simp [calcProducts, thresholdProduct, thresholdProductCalc,
      thresholdProductAfterB, DeliveryProduct.calculate_delivery_fee,
      DeliveryProduct.countableSkus, countable, notCountableStatuses,
      cancelSkuA, cancelSkuB, List.filter_cons]
    norm_num
  rw [show ({ thresholdGroup with
      products := [{ thresholdProductCalc with
        skus := [cancelSkuA,
                 { cancelSkuB with status := "refund_finished_check_rejected" }] }] } :
      DeliveryGroup).calculate_delivery_fee_on_group =
    (calcProducts [{ thresholdProductCalc with
        skus := [cancelSkuA,
                 { cancelSkuB with status := "refund_finished_check_rejected" }] }]).map
      (fun ps => DeliveryGroup.calculate_delivery_fee
        { thresholdGroup with products := ps }) from rfl, h1, Option.map_some']
  simp [DeliveryGroup.calculate_delivery_fee, thresholdGroupAfterB,
    thresholdProductAfterB, thresholdProduct, thresholdGroup,
    cancelSkuA, cancelSkuB,
    DeliveryGroup.get_original_region_additional_delivery_fee,
    calculate_region_additional_delivery_fee]

theorem thresholdGroup_fee_difference_A :
    get_delivery_fee_difference thresholdGroup "A"
      "backoffice_order_cancel_on_supplier_check_rejection" =
      some (thresholdGroupSimulatedA, -3000) := by
  have hback : thresholdGroupAfterA.setSkuStatus "A" "check_required" =
      thresholdGroupSimulatedA := by
    simp [DeliveryGroup.setSkuStatus, thresholdGroupAfterA,
      thresholdGroupSimulatedA, thresholdGroup, thresholdProductAfterA,
      thresholdProduct, cancelSkuA, cancelSkuB]
  have hst : thresholdGroupCalc.skuStatus "A" = some "check_required" := by
    simp [DeliveryGroup.skuStatus, DeliveryGroup.findSku, DeliveryGroup.allSkus,
      thresholdGroupCalc, thresholdGroup, thresholdProductCalc,
      thresholdProduct, cancelSkuA, cancelSkuB, List.find?_cons]
  rw [show get_delivery_fee_difference thresholdGroup "A"
      "backoffice_order_cancel_on_supplier_check_rejection" =
    (thresholdGroup.calculate_delivery_fee_on_group).bind (fun g1 =>
      (g1.skuStatus "A").bind (fun currentStatus =>
        (statusMapper "backoffice_order_cancel_on_supplier_check_rejection").bind
          (fun target =>
            ((g1.setSkuStatus "A" target).calculate_delivery_fee_on_group).bind
              (fun g3 => some (g3.setSkuStatus "A" currentStatus,
                g1.netFee - g3.netFee))))) from rfl,
    thresholdGroup_first_recompute]
  simp only [Option.some_bind, hst, statusMapper, thresholdGroup_second_recompute_A]
  rw [hback]
  simp [DeliveryGroup.netFee, thresholdGroupCalc, thresholdGroupAfterA,
    thresholdGroup]

theorem thresholdGroup_fee_difference_B :
    get_delivery_fee_difference thresholdGroup "B"
      "backoffice_order_cancel_on_supplier_check_rejection" =
      some (thresholdGroupSimulatedB, -3000) := by
  have hback : thresholdGroupAfterB.setSkuStatus "B" "check_required" =
      thresholdGroupSimulatedB := by
    simp [DeliveryGroup.setSkuStatus, thresholdGroupAfterB,
      thresholdGroupSimulatedB, thresholdGroup, thresholdProductAfterB,
      thresholdProduct, cancelSkuA, cancelSkuB]
  have hst : thresholdGroupCalc.skuStatus "B" = some "check_required" := by
    simp [DeliveryGroup.skuStatus, DeliveryGroup.findSku, DeliveryGroup.allSkus,
      thresholdGroupCalc, thresholdGroup, thresholdProductCalc,
      thresholdProduct, cancelSkuA, cancelSkuB, List.find?_cons]
  rw [show get_delivery_fee_difference thresholdGroup "B"
      "backoffice_order_cancel_on_supplier_check_rejection" =
    (thresholdGroup.calculate_delivery_fee_on_group).bind (fun g1 =>
      (g1.skuStatus "B").bind (fun currentStatus =>
        (statusMapper "backoffice_order_cancel_on_supplier_check_rejection").bind
          (fun target =>
            ((g1.setSkuStatus "B" target).calculate_delivery_fee_on_group).bind
              (fun g3 => some (g3.setSkuStatus "B" currentStatus,
                g1.netFee - g3.netFee))))) from rfl,
    thresholdGroup_first_recompute]
  simp only [Option.some_bind, hst, statusMapper, thresholdGroup_second_recompute_B]
  rw [hback]
  simp [DeliveryGroup.netFee, thresholdGroupCalc, thresholdGroupAfterB,
    thresholdGroup]

/-- C4 counterexample: on the single-product virtual group, cancelling line
A (value 2000) simulates a delta of −3000. The claim says the 3000 is
absorbed into the group's `loss_fee`, the delta zeroed and 2000 refunded
with no rejection; the code rejects the request (business result `none`,
the inner `return None` of the value-below-`|delta|` check, which runs
before any absorption) and leaves `loss_fee` at 0. -/
theorem virtual_group_loss_absorption_counterexample :
    thresholdGroup.supplierDeliveryGroupId = "" ∧
    thresholdGroup.products.length = 1 ∧
    get_delivery_fee_difference thresholdGroup "A"
      "backoffice_order_cancel_on_supplier_check_rejection" =
      some (thresholdGroupSimulatedA, -3000) ∧
    cancelSkuA.sellPrice * (cancelSkuA.quantity : ℚ) = 2000 ∧
    calculate_refund_price_on_partial_cancelation thresholdGroup "A"
      "backoffice_order_cancel_on_supplier_check_rejection" =
      some (thresholdGroupSimulatedA, none) ∧
    thresholdGroupSimulatedA.lossFee = 0 := by
  have hfind : thresholdGroup.findSku "A" = some cancelSkuA := by
    simp [DeliveryGroup.findSku, DeliveryGroup.allSkus, thresholdGroup,
      thresholdProduct, cancelSkuA, cancelSkuB, List.find?_cons]
  refine ⟨rfl, rfl, thresholdGroup_fee_difference_A, by norm_num [cancelSkuA],
    ?_, rfl⟩
  simp only [calculate_refund_price_on_partial_cancelation, Option.bind_eq_bind, hfind,
    thresholdGroup_fee_difference_A, Option.some_bind]
  rw [if_pos]
  constructor
  · norm_num
  · norm_num [cancelSkuA]

theorem loss_fee_absorption_on_backoffice_rejection_witness :
    (thresholdGroup.findSku "B" = some cancelSkuB ∧
      get_delivery_fee_difference thresholdGroup "B"
        "backoffice_order_cancel_on_supplier_check_rejection" =
        some (thresholdGroupSimulatedB, -3000) ∧
      (("backoffice_order_cancel_on_supplier_check_rejection" : String) =
          "backoffice_order_cancel_on_supplier_check_rejection" ∨
        ("backoffice_order_cancel_on_supplier_check_rejection" : String) =
          "backoffice_order_cancel_on_supplier_ship_rejection") ∧
      (-3000 : ℚ) < 0 ∧
      |(-3000 : ℚ)| ≤ cancelSkuB.sellPrice * (cancelSkuB.quantity : ℚ)) ∧
    calculate_refund_price_on_partial_cancelation thresholdGroup "B"
      "backoffice_order_cancel_on_supplier_check_rejection" =
      some ({ thresholdGroupSimulatedB with lossFee := |(-3000 : ℚ)| },
        some (cancelSkuB.sellPrice * (cancelSkuB.quantity : ℚ))) :=
  have hfind : thresholdGroup.findSku "B" = some cancelSkuB := by
    simp [DeliveryGroup.findSku, DeliveryGroup.allSkus, thresholdGroup,
      thresholdProduct, cancelSkuA, cancelSkuB, List.find?_cons]
  ⟨⟨hfind, thresholdGroup_fee_difference_B, Or.inl rfl, by norm_num,
      by norm_num [cancelSkuB]⟩,
    loss_fee_absorption_on_backoffice_rejection thresholdGroup
      thresholdGroupSimulatedB "B"
      "backoffice_order_cancel_on_supplier_check_rejection" cancelSkuB (-3000)
      hfind thresholdGroup_fee_difference_B (Or.inl rfl) (by norm_num)
      (by norm_num [cancelSkuB])⟩

theorem negative_delta_beyond_line_value_rejected_witness :
    (thresholdGroup.findSku "A" = some cancelSkuA ∧
      get_delivery_fee_difference thresholdGroup "A"
        "backoffice_order_cancel_on_supplier_check_rejection" =
        some (thresholdGroupSimulatedA, -3000) ∧
      (-3000 : ℚ) < 0 ∧
      cancelSkuA.sellPrice * (cancelSkuA.quantity : ℚ) < |(-3000 : ℚ)|) ∧
    (calculate_refund_price_on_partial_cancelation thresholdGroup "A"
        "backoffice_order_cancel_on_supplier_check_rejection" =
        some (thresholdGroupSimulatedA, none) ∧
      thresholdGroupSimulatedA.lossFee = thresholdGroup.lossFee ∧
      thresholdGroupSimulatedA.skuStatus "A" = thresholdGroup.skuStatus "A") :=
  have hfind : thresholdGroup.findSku "A" = some cancelSkuA := by
    simp [DeliveryGroup.findSku, DeliveryGroup.allSkus, thresholdGroup,
      thresholdProduct, cancelSkuA, cancelSkuB, List.find?_cons]
  ⟨⟨hfind, thresholdGroup_fee_difference_A, by norm_num,
      by norm_num [cancelSkuA]⟩,
    negative_delta_beyond_line_value_rejected thresholdGroup
      thresholdGroupSimulatedA "A"
      "backoffice_order_cancel_on_supplier_check_rejection" cancelSkuA (-3000)
      hfind thresholdGroup_fee_difference_A (by norm_num)
      (by norm_num [cancelSkuA])⟩

theorem fee_difference_restores_status_not_aggregates_witness :
    (thresholdGroup.calculate_delivery_fee_on_group = some thresholdGroupCalc ∧
      thresholdGroup.skuStatus "A" = some "check_required" ∧
      statusMapper "backoffice_order_cancel_on_supplier_check_rejection" =
        some "refund_finished_check_rejected" ∧
      (thresholdGroupCalc.setSkuStatus "A"
          "refund_finished_check_rejected").calculate_delivery_fee_on_group =
        some thresholdGroupAfterA) ∧
    (get_delivery_fee_difference thresholdGroup "A"
        "backoffice_order_cancel_on_supplier_check_rejection" =
        some (thresholdGroupAfterA.setSkuStatus "A" "check_required",
          thresholdGroupCalc.netFee - thresholdGroupAfterA.netFee) ∧
      (thresholdGroupAfterA.setSkuStatus "A" "check_required").skuStatus "A" =
        some "check_required" ∧
      (thresholdGroupAfterA.setSkuStatus "A"
          "check_required").currCalculatedGroupDeliveryFee =
        thresholdGroupAfterA.currCalculatedGroupDeliveryFee ∧
      (thresholdGroupAfterA.setSkuStatus "A"
          "check_required").currGroupDeliveryDiscount =
        thresholdGroupAfterA.currGroupDeliveryDiscount ∧
      (thresholdGroupAfterA.setSkuStatus "A"
          "check_required").currRegionAdditionalDeliveryFee =
        thresholdGroupAfterA.currRegionAdditionalDeliveryFee) :=
  have hst : thresholdGroup.skuStatus "A" = some "check_required" := by
    simp [DeliveryGroup.skuStatus, DeliveryGroup.findSku, DeliveryGroup.allSkus,
      thresholdGroup, thresholdProduct, cancelSkuA, cancelSkuB, List.find?_cons]
  ⟨⟨thresholdGroup_first_recompute, hst, rfl, thresholdGroup_second_recompute_A⟩,
    fee_difference_restores_status_not_aggregates thresholdGroup
      thresholdGroupCalc thresholdGroupAfterA "A"
      "backoffice_order_cancel_on_supplier_check_rejection" "check_required"
      "refund_finished_check_rejected" thresholdGroup_first_recompute hst rfl
      thresholdGroup_second_recompute_A⟩

/-! ## Claim C7 -/

/-- A grouped product with a countable line and the lower fee 4000. -/
def maxFeeP1 : DeliveryProduct :=
  { id := "GP1", hasDeliveryInfo := true,
    deliveryPricingMethod := "regular_charge",
    baseDeliveryFee := 4000, chargeStandard := 0,
    refundDeliveryFee := 300, refundDeliveryFeeIfFreeDelivery := 700,
    numberOfSkusToConsider := 1, numberOfQuantityToConsider := 1,
    productPvAmount := 1000, currCalculatedProductDeliveryFee := 4000,
    skus := [] }

/-- The sibling product with the strictly larger fee 6000, distinct return
schedules (normal 100, free-delivery 999). -/
def maxFeeP2 : DeliveryProduct :=
  { id := "GP2", hasDeliveryInfo := true,
    deliveryPricingMethod := "regular_charge",
    baseDeliveryFee := 6000, chargeStandard := 0,
    refundDeliveryFee := 100, refundDeliveryFeeIfFreeDelivery := 999,
    numberOfSkusToConsider := 1, numberOfQuantityToConsider := 1,
    productPvAmount := 1000, currCalculatedProductDeliveryFee := 6000,
    skus := [] }

/-- A real (multi-product) group of the two. -/
def maxFeeGroup : DeliveryGroup :=
  { supplierDeliveryGroupId := "G1", calculationMethod := "max",
    regionId := 1, regionDivisionLevel := none,
    division2Fee := 0, division3JejuFee := 0, division3OutsideJejuFee := 0,
    isAdditionalPricingSet := false, lossFee := 0,
    currCalculatedGroupDeliveryFee := 0, currGroupDeliveryDiscount := 0,
    currRegionAdditionalDeliveryFee := 0, products := [maxFeeP1, maxFeeP2] }

/-- C7 counterexample: GP2's fee 6000 is the unique maximum among the
group's products with countable lines, yet `check_if_delivered_for_free`
classifies GP2 as NOT delivered for free (`false`), and the return-fee
computation therefore takes the normal `refund_delivery_fee` schedule
(100), not the free-delivery one (999) the claim prescribes for the
unique-maximum case. -/
theorem delivered_for_free_inverted_counterexample :
    builtinsMax ((maxFeeGroup.products.filter
        (fun p => 0 < p.numberOfSkusToConsider)).map
        (·.currCalculatedProductDeliveryFee)) =
      maxFeeP2.currCalculatedProductDeliveryFee ∧
    ((maxFeeGroup.products.filter (fun p => 0 < p.numberOfSkusToConsider)).map
        (·.currCalculatedProductDeliveryFee)).count
      maxFeeP2.currCalculatedProductDeliveryFee = 1 ∧
    check_if_delivered_for_free maxFeeGroup "GP2" = false ∧
    calculate_delivery_fee_on_return_check maxFeeGroup maxFeeP2 1
      (check_if_delivered_for_free maxFeeGroup "GP2") =
      maxFeeP2.refundDeliveryFee ∧
    maxFeeP2.refundDeliveryFee ≠ maxFeeP2.refundDeliveryFeeIfFreeDelivery := by
  have hmax : max (4000 : ℚ) 6000 = 6000 := max_eq_right (by norm_num)
  have hcheck : check_if_delivered_for_free maxFeeGroup "GP2" = false := by
    simp [check_if_delivered_for_free, maxFeeGroup, maxFeeP1, maxFeeP2,
      List.filter_cons, List.find?_cons, builtinsMax, List.count_cons, hmax]
  refine ⟨?_, ?_, hcheck, ?_, by norm_num [maxFeeP2]⟩
  · simp [maxFeeGroup, maxFeeP1, maxFeeP2, List.filter_cons, builtinsMax, hmax]
  · simp [maxFeeGroup, maxFeeP1, maxFeeP2, List.filter_cons, List.count_cons]
  · rw [hcheck]
    simp [calculate_delivery_fee_on_return_check, maxFeeGroup, maxFeeP2,
      DeliveryGroup.get_original_region_additional_delivery_fee,
      calculate_region_additional_delivery_fee]

/-- C7 amended: `check_if_delivered_for_free` answers `false` — and the
normal `refund_delivery_fee` schedule is then used — exactly when the
product's cached fee equals the maximum fee among the group's products that
still have countable skus and that maximum is unique; in every other case
it answers `true` and `refund_delivery_fee_if_free_delivery` is used. The
claim has the two cases swapped. -/
theorem delivered_for_free_schedule_selection (g : DeliveryGroup)
    (p : DeliveryProduct) (q : ℕ)
    (hfind : g.products.find? (fun x => x.id == p.id) = some p) :
    (check_if_delivered_for_free g p.id = false ↔
      (builtinsMax ((g.products.filter
          (fun x => 0 < x.numberOfSkusToConsider)).map
          (·.currCalculatedProductDeliveryFee)) =
        p.currCalculatedProductDeliveryFee ∧
       ((g.products.filter (fun x => 0 < x.numberOfSkusToConsider)).map
          (·.currCalculatedProductDeliveryFee)).count
         p.currCalculatedProductDeliveryFee = 1)) ∧
    (∀ free : Bool,
      calculate_delivery_fee_on_return_check g p q free =
        (if free then p.refundDeliveryFeeIfFreeDelivery
          else p.refundDeliveryFee) *
          (((if p.deliveryPricingMethod = "unit_charge" then
              ⌈(q : ℚ) / p.chargeStandard⌉ else 1) : ℤ) : ℚ) +
        (if g.supplierDeliveryGroupId = "" ∧
            p.deliveryPricingMethod = "unit_charge" then
          g.get_original_region_additional_delivery_fee *
            (((if p.deliveryPricingMethod = "unit_charge" then
                ⌈(q : ℚ) / p.chargeStandard⌉ else 1) : ℤ) : ℚ)
         else g.get_original_region_additional_delivery_fee)) := by
  constructor
  · simp [check_if_delivered_for_free, hfind]
  · intro free
    rfl

theorem delivered_for_free_schedule_selection_witness :
    (maxFeeGroup.products.find? (fun x => x.id == maxFeeP2.id) = some maxFeeP2) ∧
    ((check_if_delivered_for_free maxFeeGroup maxFeeP2.id = false ↔
      (builtinsMax ((maxFeeGroup.products.filter
          (fun x => 0 < x.numberOfSkusToConsider)).map
          (·.currCalculatedProductDeliveryFee)) =
        maxFeeP2.currCalculatedProductDeliveryFee ∧
       ((maxFeeGroup.products.filter
          (fun x => 0 < x.numberOfSkusToConsider)).map
          (·.currCalculatedProductDeliveryFee)).count
         maxFeeP2.currCalculatedProductDeliveryFee = 1)) ∧
    (∀ free : Bool,
      calculate_delivery_fee_on_return_check maxFeeGroup maxFeeP2 1 free =
        (if free then maxFeeP2.refundDeliveryFeeIfFreeDelivery
          else maxFeeP2.refundDeliveryFee) *
          (((if maxFeeP2.deliveryPricingMethod = "unit_charge" then
              ⌈(1 : ℚ) / maxFeeP2.chargeStandard⌉ else 1) : ℤ) : ℚ) +
        (if maxFeeGroup.supplierDeliveryGroupId = "" ∧
            maxFeeP2.deliveryPricingMethod = "unit_charge" then
          maxFeeGroup.get_original_region_additional_delivery_fee *
            (((if maxFeeP2.deliveryPricingMethod = "unit_charge" then
                ⌈(1 : ℚ) / maxFeeP2.chargeStandard⌉ else 1) : ℤ) : ℚ)
         else maxFeeGroup.get_original_region_additional_delivery_fee))) :=
  have hfind : maxFeeGroup.products.find? (fun x => x.id == maxFeeP2.id) =
      some maxFeeP2 := by
    simp [maxFeeGroup, maxFeeP1, maxFeeP2, List.find?_cons]
  ⟨hfind, by
    have h := delivered_for_free_schedule_selection maxFeeGroup maxFeeP2 1 hfind
    simpa using h⟩

end Delivery
